import Mathlib

/-!
Verification of the `pyri_state` state-flush scheduling engine.

The development shallowly embeds the scheduling code of the repository:

* `src/src/schedule.rs` — the `StateFlushSet` pipeline: `schedule_detect_change`,
  `schedule_resolve_state`, `schedule_apply_flush`, `schedule_send_event`,
  `schedule_bevy_state`, `check_flush_flag`.
* `src/src/schedule/resolve_state.rs` — the `ResolveStateSet` pipeline with
  `Compute` and `Any*` sub-sets and their run conditions.
* `src/src/app.rs` — registration (`add_state_` / `init_state_` / `insert_state_`).

The per-type state buffer (`CurrentState<S>` / `NextState_<S>` from `buffer.rs`
and the `State_` trait methods from `state.rs`) is not present under `src/`;
those operations are modelled from the spec where noted.
-/

namespace PyriState

/-- The per-type state channel.  `current` embeds the `CurrentState<S>` resource,
`next` embeds the `NextState_<S>.inner` field and `flush` the `NextState_<S>.flush`
field seen in `src/src/schedule.rs` (`state.flush`, `pyri_state.get()`,
`pyri_state.set_flush(true).inner = value.0`). -/
structure Channel (σ : Type) where
  current : Option σ
  next : Option σ
  flush : Bool
  deriving DecidableEq, Repr

variable {σ : Type}

/-- Embeds `check_flush_flag` from `src/src/schedule.rs`: `state.flush`. -/
def check_flush_flag (ch : Channel σ) : Bool :=
  ch.flush

/-- Modelled from the spec: `set_flush` (from the missing `buffer.rs`) sets the
flush flag, as in "externally forced via an explicit set-flush call". -/
def set_flush (b : Bool) (ch : Channel σ) : Channel σ :=
  { ch with flush := b }

/-- Modelled from the spec: `set_next(Optional<Value>)` (from the missing
`buffer.rs`) stores the pending next value. -/
def set_next (n : Option σ) (ch : Channel σ) : Channel σ :=
  { ch with next := n }

/-- Modelled from the spec: `S::will_any_change` (from the missing `state.rs`)
holds when "`next` differs from `current` under domain equality". -/
def will_any_change [DecidableEq σ] (ch : Channel σ) : Bool :=
  ch.next != ch.current

/-- Modelled from the spec: `S::is_enabled` (from the missing `state.rs`):
"whether a state type currently holds a present value". -/
def is_enabled (ch : Channel σ) : Bool :=
  ch.current.isSome

/-- Modelled from the spec: `S::will_be_enabled` (from the missing `state.rs`):
whether the type will hold a present value after apply, i.e. `next` is present. -/
def will_be_enabled (ch : Channel σ) : Bool :=
  ch.next.isSome

/-- Modelled from the spec: `S::is_triggered` (from the missing `state.rs`):
whether a flush has been triggered this tick, i.e. the flush flag is set. -/
def is_triggered (ch : Channel σ) : Bool :=
  ch.flush

/-- Modelled from the spec: `S::will_any_exit` (from the missing `state.rs`),
per "*Exit*: runs if pre-commit `current` is present". -/
def will_any_exit (ch : Channel σ) : Bool :=
  ch.current.isSome

/-- Modelled from the spec: `S::will_any_transition` (from the missing
`state.rs`), per "*Trans*: runs only if both `current` and `next` are present". -/
def will_any_transition (ch : Channel σ) : Bool :=
  ch.current.isSome && ch.next.isSome

/-- Modelled from the spec: `S::will_any_enter` (from the missing `state.rs`),
per "*Enter*: runs if `next` is present". -/
def will_any_enter (ch : Channel σ) : Bool :=
  ch.next.isSome

/-- Embeds `schedule_detect_change` from `src/src/schedule.rs`: the system
`S::set_flush(true).run_if(S::will_any_change)` placed in the `Trigger` set. -/
def detect_change [DecidableEq σ] (ch : Channel σ) : Channel σ :=
  if will_any_change ch then set_flush true ch else ch

/-- Modelled from the spec: `S::apply_flush` (from the missing `state.rs`)
"commits `current := next`". -/
def apply_flush (ch : Channel σ) : Channel σ :=
  { ch with current := ch.next }

/-- Embeds `schedule_apply_flush` from `src/src/schedule.rs`: the systems
`(S::apply_flush, S::set_flush(false)).run_if(check_flush_flag)` in
`ApplyFlushSet`.  The run condition gates both systems; they commute since they
touch distinct fields, so their unordered pair is embedded as a composition. -/
def apply_phase (ch : Channel σ) : Channel σ :=
  if check_flush_flag ch then set_flush false (apply_flush ch) else ch

/-! ## The system-set ordering graph

`schedule_resolve_state` (in `src/src/schedule/resolve_state.rs`) configures,
per state type `S`, the system sets `Resolve ⊇ (Compute, Trigger, Flush)`
(chained), `Flush ⊇ (Exit, Trans, Enter)` (chained), `AnyFlush ⊆ Flush` with the
`Any*` sets nested in the matching sub-phase, `Resolve` before `ApplyFlushSet`,
and `Resolve` after/before the `Resolve` sets of declared dependencies.
State types are tagged by `Nat`; a declared edge `(a, b)` means
`Resolve a` was configured before `Resolve b` (via `ResolveStatePlugin`'s
`after`/`before`). -/

/-- One representative system per sub-phase of a state type, plus the
`apply_flush`/`set_flush(false)` pair of `schedule_apply_flush` (`applyPh`) and
the `send_flush_event` system of `schedule_send_event` (`sendEvent`). -/
inductive SubPhase : Type
  | compute | trigger | exitPh | transPh | enterPh
  | anyExit | anyTrans | anyEnter | sendEvent | applyPh
  deriving DecidableEq, Repr

/-- An atomic schedulable system: a state-type tag paired with its sub-phase. -/
abbrev Atom : Type := Nat × SubPhase

/-- The system sets of `src/src/schedule/resolve_state.rs` (`ResolveStateSet`)
together with the `ApplyFlushSet` of `src/src/schedule.rs`. -/
inductive SysSet : Type
  | resolve (t : Nat) | compute (t : Nat) | trigger (t : Nat) | flush (t : Nat)
  | exitPh (t : Nat) | transPh (t : Nat) | enterPh (t : Nat)
  | anyFlush (t : Nat) | anyExit (t : Nat) | anyTrans (t : Nat) | anyEnter (t : Nat)
  | applyFlushSet
  deriving DecidableEq, Repr

/-- The sets each atom belongs to, mirroring the `.in_set` nesting of
`schedule_resolve_state` in `resolve_state.rs`: `Compute, Trigger, Flush` are in
`Resolve`; `Exit, Trans, Enter` and `AnyFlush` are in `Flush`; `AnyExit` is in
`Exit` and `AnyFlush` (similarly `AnyTrans`, `AnyEnter`); the
`schedule_send_event` system runs under the global-flush gate (`AnyFlush`); the
`schedule_apply_flush` systems are in `ApplyFlushSet`. -/
def setsOf : Atom → List SysSet
  | (t, .compute) => [.compute t, .resolve t]
  | (t, .trigger) => [.trigger t, .resolve t]
  | (t, .exitPh) => [.exitPh t, .flush t, .resolve t]
  | (t, .transPh) => [.transPh t, .flush t, .resolve t]
  | (t, .enterPh) => [.enterPh t, .flush t, .resolve t]
  | (t, .anyExit) => [.anyExit t, .exitPh t, .anyFlush t, .flush t, .resolve t]
  | (t, .anyTrans) => [.anyTrans t, .transPh t, .anyFlush t, .flush t, .resolve t]
  | (t, .anyEnter) => [.anyEnter t, .enterPh t, .anyFlush t, .flush t, .resolve t]
  | (t, .sendEvent) => [.anyFlush t, .flush t, .resolve t]
  | (_, .applyPh) => [.applyFlushSet]

/-- The `before` constraints configured by `schedule_resolve_state` for the
registered state types `types` and declared dependency edges `deps`
(`(a, b) ∈ deps` reads "`Resolve a` before `Resolve b`"):

* each declared edge orders the two `Resolve` sets ("External ordering");
* `Resolve t` is before `ApplyFlushSet`;
* `(Compute t, Trigger t, Flush t).chain()` and
  `(Exit t, Trans t, Enter t).chain()` ("Internal ordering"). -/
def constraints (types : List Nat) (deps : List (Nat × Nat)) : List (SysSet × SysSet) :=
  (deps.map fun e => (SysSet.resolve e.1, SysSet.resolve e.2)) ++
    types.flatMap fun t =>
      [(SysSet.resolve t, SysSet.applyFlushSet),
       (SysSet.compute t, SysSet.trigger t),
       (SysSet.trigger t, SysSet.flush t),
       (SysSet.exitPh t, SysSet.transPh t),
       (SysSet.transPh t, SysSet.enterPh t)]

/-- Atom `p` is directly constrained before atom `q`: some configured
set-level constraint has `p` in its first set and `q` in its second. -/
def Step (types : List Nat) (deps : List (Nat × Nat)) (p q : Atom) : Prop :=
  ∃ c ∈ constraints types deps, c.1 ∈ setsOf p ∧ c.2 ∈ setsOf q

instance (types : List Nat) (deps : List (Nat × Nat)) (p q : Atom) :
    Decidable (Step types deps p q) := by
  unfold Step; infer_instance

/-- A valid sequential execution of one tick: a duplicate-free list of the
scheduled atoms in which every directly constrained pair appears in
constraint order.  (The host scheduler guarantees exactly this for the
configured constraints.) -/
def ValidExec (types : List Nat) (deps : List (Nat × Nat)) (l : List Atom) : Prop :=
  l.Nodup ∧ ∀ p ∈ l, ∀ q ∈ l, Step types deps p q → l.indexOf p < l.indexOf q

instance (types : List Nat) (deps : List (Nat × Nat)) (l : List Atom) :
    Decidable (ValidExec types deps l) := by
  unfold ValidExec; infer_instance

/-- A one-tick execution for two state types `0` and `1` with `0` declared
before `1`, in the order the scheduler would produce. -/
def execAB : List Atom :=
  [(0, .compute), (0, .trigger), (0, .exitPh), (0, .anyExit), (0, .transPh),
   (0, .anyTrans), (0, .enterPh), (0, .anyEnter), (0, .sendEvent),
   (1, .compute), (1, .trigger), (1, .exitPh), (1, .anyExit), (1, .transPh),
   (1, .anyTrans), (1, .enterPh), (1, .anyEnter), (1, .sendEvent),
   (0, .applyPh), (1, .applyPh)]

/-! ## Run conditions

An atom runs iff the run conditions attached to it and to every set containing
it all hold.  The two generations of the scheduler attach different conditions:
`schedule_resolve_state` in `src/src/schedule/resolve_state.rs` gates the `Any*`
sets, while the `schedule_resolve_state` in `src/src/schedule.rs` gates the
`Flush`, `Exit`, `Transition`, `Enter` sets directly. -/

/-- The run conditions of `src/src/schedule/resolve_state.rs`:
`AnyFlush.run_if(S::is_triggered)`, `AnyExit.run_if(S::is_enabled)`,
`AnyTrans.run_if(S::is_enabled.and(S::will_be_enabled))`,
`AnyEnter.run_if(S::will_be_enabled)`; no other set has a condition. -/
def guardRS (ch : Channel σ) : SysSet → Bool
  | .anyFlush _ => is_triggered ch
  | .anyExit _ => is_enabled ch
  | .anyTrans _ => is_enabled ch && will_be_enabled ch
  | .anyEnter _ => will_be_enabled ch
  | _ => true

/-- Whether an atom runs under the `resolve_state.rs` conditions: all conditions
of its enclosing sets hold on the channel state. -/
def runsRS (p : Atom) (ch : Channel σ) : Bool :=
  (setsOf p).all (guardRS ch)

/-- The run conditions of `schedule_resolve_state` in `src/src/schedule.rs`:
`Flush.run_if(check_flush_flag)`, `Exit.run_if(S::will_any_exit)`,
`Transition.run_if(S::will_any_transition)`, `Enter.run_if(S::will_any_enter)`. -/
def guardSched (ch : Channel σ) : SysSet → Bool
  | .flush _ => check_flush_flag ch
  | .exitPh _ => will_any_exit ch
  | .transPh _ => will_any_transition ch
  | .enterPh _ => will_any_enter ch
  | _ => true

/-- Whether an atom runs under the `schedule.rs` conditions. -/
def runsSched (p : Atom) (ch : Channel σ) : Bool :=
  (setsOf p).all (guardSched ch)

/-! ## Flush events -/

/-- Embeds `StateFlushEvent` from `src/src/schedule.rs`:
`{ before: Option<S>, after: Option<S> }`. -/
structure StateFlushEvent (σ : Type) where
  before : Option σ
  after : Option σ
  deriving DecidableEq, Repr

/-- Modelled from the spec: `S::send_flush_event` (from the missing `state.rs`)
publishes the snapshot `{ before: current, after: next }`. -/
def send_flush_event (ch : Channel σ) : StateFlushEvent σ :=
  ⟨ch.current, ch.next⟩

/-- Embeds `schedule_send_event` from `src/src/schedule.rs` adds
`S::on_any_flush(S::send_flush_event)`; `on_any_flush` is modelled from the
spec (missing `state.rs`) as gating on the triggered flush, matching the
`AnyFlush` condition.  The list of events published for one type in one tick. -/
def tick_events (ch : Channel σ) : List (StateFlushEvent σ) :=
  if is_triggered ch then [send_flush_event ch] else []

/-- Schedule labels of the main loop relevant to `PyriStatePlugin`. -/
inductive ScheduleLabel : Type
  | first | preUpdate | stateFlush | update | postUpdate | last
  deriving DecidableEq, Repr

/-- Embeds `MainScheduleOrder::insert_after`: insert `y` right after the first
occurrence of `x`. -/
def insert_after [DecidableEq α] (x y : α) : List α → List α
  | [] => []
  | a :: rest => if a = x then a :: y :: rest else a :: insert_after x y rest

/-- Embeds what `PyriStatePlugin` from `src/src/app.rs` calls
`insert_after(PreUpdate, StateFlush)` on the main schedule order.  The base
order `[First, PreUpdate, Update, PostUpdate, Last]` is the host scheduler's
(modelled from the spec: the host scheduler that invokes each tick is
external). -/
def mainScheduleOrder : List ScheduleLabel :=
  insert_after .preUpdate .stateFlush [.first, .preUpdate, .update, .postUpdate, .last]

/-! ## Bevy-state mirroring (`schedule_bevy_state` in `src/src/schedule.rs`) -/

/-- Combined state for a `pyri_state` channel and the parallel Bevy resource
`NextState<BevyState<S>>`; its `0` field is `Option<BevyState<S>>` and
`BevyState` wraps `Option<S>`, so the Bevy pending slot is `Option (Option σ)`
(`none` = the external side wrote nothing this tick). -/
structure BevySync (σ : Type) where
  pyri : Channel σ
  bevyPending : Option (Option σ)
  deriving DecidableEq, Repr

/-- Embeds `update_pyri_state` from `schedule_bevy_state` (`src/src/schedule.rs`),
scheduled in the `Trigger` set: if the Bevy side wrote a pending value,
`pyri_state.set_flush(true).inner = value.0`. -/
def update_pyri_state (s : BevySync σ) : BevySync σ :=
  match s.bevyPending with
  | some v => { s with pyri := set_next v (set_flush true s.pyri) }
  | none => s

/-- Embeds `update_bevy_state` from `schedule_bevy_state` (`src/src/schedule.rs`),
wrapped in `S::on_any_flush` (modelled from the spec as gating on the triggered
flush): if `bevy_state.0.is_none()`, write `BevyState(pyri_state.get().cloned())`
into the Bevy pending slot. -/
def update_bevy_state (s : BevySync σ) : BevySync σ :=
  if is_triggered s.pyri && s.bevyPending.isNone then
    { s with bevyPending := some s.pyri.next }
  else s

/-- One tick of the mirroring pipeline: the `Trigger`-set systems
(`update_pyri_state` and `detect_change`; their relative order is not
constrained by the source, and the properties proved below hold in either
order), then the flush-gated `update_bevy_state`. -/
def bevy_tick [DecidableEq σ] (s : BevySync σ) : BevySync σ :=
  let s1 := update_pyri_state s
  update_bevy_state { s1 with pyri := detect_change s1.pyri }

/-! ## Registration (`src/src/app.rs`) -/

/-- The app's registration state: which type tags own a `CurrentState` resource,
the storage resources inserted so far, and an abstract log of scheduling
configuration.  Type tags are `Nat`; storage payloads are abstracted to
`Option Nat` (`none` for `add_state_`'s default, `some _` for an initial or
inserted storage value). -/
structure App where
  registered : List Nat
  storage : List (Nat × Option Nat)
  schedule : List Nat
  deriving DecidableEq, Repr

/-- Embeds `self.world.contains_resource::<CurrentState<S>>()`. -/
def contains_resource (app : App) (t : Nat) : Bool :=
  app.registered.contains t

/-- Modelled from the spec: `S::add_state` (from the missing derive machinery)
inserts the `CurrentState<S>` resource and configures `S`'s scheduling. -/
def add_state (t : Nat) (app : App) : App :=
  { app with registered := t :: app.registered, schedule := t :: app.schedule }

/-- Modelled from the spec: `S::AddStorage::add_state_storage` inserts the
storage resource with the given initial contents. -/
def add_state_storage (t : Nat) (init : Option Nat) (app : App) : App :=
  { app with storage := (t, init) :: app.storage }

/-- Embeds `add_state_` from `src/src/app.rs`: guarded on
`!contains_resource::<CurrentState<S>>()`, then
`add_state_storage(app, None); S::add_state(app)`. -/
def add_state_ (t : Nat) (app : App) : App :=
  if contains_resource app t then app
  else add_state t (add_state_storage t none app)

/-- Embeds `init_state_` from `src/src/app.rs`: same guard, then builds the default
storage with `from_world` and calls `add_state_storage(app, Some storage)` and
`S::add_state(app)`. -/
def init_state_ (t : Nat) (defaultStorage : Nat) (app : App) : App :=
  if contains_resource app t then app
  else add_state t (add_state_storage t (some defaultStorage) app)

/-- Embeds `insert_state_` from `src/src/app.rs`: same guard, then
`add_state_storage(app, Some storage); S::add_state(app)`. -/
def insert_state_ (t : Nat) (storageVal : Nat) (app : App) : App :=
  if contains_resource app t then app
  else add_state t (add_state_storage t (some storageVal) app)

/-! ## Helper lemmas on the constraint graph -/

theorem mem_constraints_of_edge {types : List Nat} {deps : List (Nat × Nat)} {a b : Nat}
    (hab : (a, b) ∈ deps) :
    (SysSet.resolve a, SysSet.resolve b) ∈ constraints types deps := by
  unfold constraints
  exact List.mem_append_left _ (List.mem_map.mpr ⟨(a, b), hab, rfl⟩)

theorem mem_constraints_of_type {types : List Nat} {deps : List (Nat × Nat)} {t : Nat}
    (ht : t ∈ types) {c : SysSet × SysSet}
    (hc : c ∈ [(SysSet.resolve t, SysSet.applyFlushSet),
               (SysSet.compute t, SysSet.trigger t),
               (SysSet.trigger t, SysSet.flush t),
               (SysSet.exitPh t, SysSet.transPh t),
               (SysSet.transPh t, SysSet.enterPh t)]) :
    c ∈ constraints types deps := by
  unfold constraints
  exact List.mem_append_right _ (List.mem_flatMap.mpr ⟨t, ht, hc⟩)

theorem step_of_edge {types : List Nat} {deps : List (Nat × Nat)} {a b : Nat} {p q : Atom}
    (hab : (a, b) ∈ deps)
    (hp : SysSet.resolve a ∈ setsOf p) (hq : SysSet.resolve b ∈ setsOf q) :
    Step types deps p q :=
  ⟨_, mem_constraints_of_edge hab, hp, hq⟩

theorem step_of_type_constraint {types : List Nat} {deps : List (Nat × Nat)} {t : Nat}
    {p q : Atom} (ht : t ∈ types) {X Y : SysSet}
    (hXY : (X, Y) ∈ [(SysSet.resolve t, SysSet.applyFlushSet),
               (SysSet.compute t, SysSet.trigger t),
               (SysSet.trigger t, SysSet.flush t),
               (SysSet.exitPh t, SysSet.transPh t),
               (SysSet.transPh t, SysSet.enterPh t)])
    (hp : X ∈ setsOf p) (hq : Y ∈ setsOf q) :
    Step types deps p q :=
  ⟨(X, Y), mem_constraints_of_type ht hXY, hp, hq⟩

/-! ## The claims -/

/-- Claim C1 (amended): for a declared edge "A before B", every system of A's
Resolve phase (its Compute, Trigger and Flush) runs before every system of B's
Resolve phase — in particular before B's Compute begins; A's Apply, which lives
in the global `ApplyFlushSet`, instead runs strictly after B's Compute. -/
theorem c1_before_orders_resolve_not_apply
    (types : List Nat) (deps : List (Nat × Nat)) (a b : Nat) (l : List Atom)
    (hab : (a, b) ∈ deps) (hb : b ∈ types)
    (hv : ValidExec types deps l)
    (p q : Atom)
    (hp : SysSet.resolve a ∈ setsOf p) (hq : SysSet.resolve b ∈ setsOf q)
    (hpl : p ∈ l) (hql : q ∈ l)
    (hcl : (b, SubPhase.compute) ∈ l) (hal : (a, SubPhase.applyPh) ∈ l) :
    l.indexOf p < l.indexOf q ∧
      l.indexOf (b, SubPhase.compute) < l.indexOf (a, SubPhase.applyPh) :=
  ⟨hv.2 p hpl q hql (step_of_edge hab hp hq),
   hv.2 _ hcl _ hal (@step_of_type_constraint types deps b _ _ hb
     (SysSet.resolve b) SysSet.applyFlushSet (by simp) (by simp [setsOf]) (by simp [setsOf]))⟩

/-- Claim C1, as stated, is false on the code: in a valid one-tick execution for
state types `0` declared before `1`, type 0's Apply does not complete before
type 1's Compute begins — the configured constraints force the opposite order,
since every `Resolve` set precedes `ApplyFlushSet`. -/
theorem c1_counterexample :
    ValidExec [0, 1] [(0, 1)] execAB ∧
      ¬ execAB.indexOf ((0 : Nat), SubPhase.applyPh) <
          execAB.indexOf ((1 : Nat), SubPhase.compute) := by
  decide

/-- Witness for the amended claim C1 at the concrete execution `execAB`. -/
theorem c1_witness :
    (((0 : Nat), (1 : Nat)) ∈ [((0 : Nat), (1 : Nat))] ∧
      ValidExec [0, 1] [(0, 1)] execAB) ∧
      execAB.indexOf ((0 : Nat), SubPhase.trigger) < execAB.indexOf ((1 : Nat), SubPhase.compute) ∧
      execAB.indexOf ((1 : Nat), SubPhase.compute) < execAB.indexOf ((0 : Nat), SubPhase.applyPh) :=
  ⟨⟨by decide, by decide⟩,
    c1_before_orders_resolve_not_apply [0, 1] [(0, 1)] 0 1 execAB (by decide) (by decide)
      (by decide) ((0 : Nat), SubPhase.trigger) ((1 : Nat), SubPhase.compute)
      (by decide) (by decide) (by decide) (by decide) (by decide) (by decide)⟩

/-- Claim C2: for a state type S declared "after A" (edge `(a, s)`), every
system of S's Resolve phase runs strictly after every system of A's Resolve
phase in the same tick; and every type's Apply (in `ApplyFlushSet`) is ordered
after every registered type's Resolve phase. -/
theorem c2_resolve_order_and_apply_after_resolve
    (types : List Nat) (deps : List (Nat × Nat)) (a s : Nat) (l : List Atom)
    (has : (a, s) ∈ deps) (hv : ValidExec types deps l) :
    (∀ p q : Atom, SysSet.resolve a ∈ setsOf p → SysSet.resolve s ∈ setsOf q →
        p ∈ l → q ∈ l → l.indexOf p < l.indexOf q) ∧
      ∀ t ∈ types, ∀ p : Atom, SysSet.resolve t ∈ setsOf p → p ∈ l →
        ∀ u : Nat, (u, SubPhase.applyPh) ∈ l →
          l.indexOf p < l.indexOf (u, SubPhase.applyPh) := by
  constructor
  · intro p q hp hq hpl hql
    exact hv.2 p hpl q hql (step_of_edge has hp hq)
  · intro t ht p hp hpl u hul
    exact hv.2 p hpl _ hul (@step_of_type_constraint types deps t p (u, SubPhase.applyPh) ht
      (SysSet.resolve t) SysSet.applyFlushSet (by simp) hp (by simp [setsOf]))

/-- Witness for claim C2 at the concrete execution `execAB`. -/
theorem c2_witness :
    (((0 : Nat), (1 : Nat)) ∈ [((0 : Nat), (1 : Nat))] ∧
      ValidExec [0, 1] [(0, 1)] execAB) ∧
      execAB.indexOf ((0 : Nat), SubPhase.enterPh) < execAB.indexOf ((1 : Nat), SubPhase.trigger) ∧
      execAB.indexOf ((1 : Nat), SubPhase.enterPh) < execAB.indexOf ((0 : Nat), SubPhase.applyPh) := by
  have h := c2_resolve_order_and_apply_after_resolve [0, 1] [(0, 1)] 0 1 execAB
    (by decide) (by decide)
  exact ⟨⟨by decide, by decide⟩,
    h.1 ((0 : Nat), SubPhase.enterPh) ((1 : Nat), SubPhase.trigger)
      (by decide) (by decide) (by decide) (by decide),
    h.2 1 (by decide) ((1 : Nat), SubPhase.enterPh) (by decide) (by decide) 0 (by decide)⟩

/-- Claim C3: under the run conditions of `src/src/schedule.rs`, the Flush
sub-phases run only when the flush flag is true; Exit additionally runs only
when the pre-commit `current` value is present; and within the Flush phase the
Exit, Trans and Enter sub-phases execute in that order. -/
theorem c3_flush_gating_and_subphase_order {σ : Type} (t : Nat) (ch : Channel σ)
    (types : List Nat) (deps : List (Nat × Nat)) (l : List Atom)
    (ht : t ∈ types) (hv : ValidExec types deps l)
    (he : (t, SubPhase.exitPh) ∈ l) (htr : (t, SubPhase.transPh) ∈ l)
    (hen : (t, SubPhase.enterPh) ∈ l) :
    (runsSched (t, SubPhase.exitPh) ch = true → ch.flush = true ∧ ch.current.isSome = true) ∧
      (runsSched (t, SubPhase.transPh) ch = true → ch.flush = true) ∧
      (runsSched (t, SubPhase.enterPh) ch = true → ch.flush = true) ∧
      l.indexOf (t, SubPhase.exitPh) < l.indexOf (t, SubPhase.transPh) ∧
      l.indexOf (t, SubPhase.transPh) < l.indexOf (t, SubPhase.enterPh) := by
  refine ⟨?_, ?_, ?_, ?_, ?_⟩
  · intro h
    simp [runsSched, setsOf, guardSched, check_flush_flag, will_any_exit] at h
    exact ⟨h.2, h.1⟩
  · intro h
    simp [runsSched, setsOf, guardSched, check_flush_flag, will_any_transition] at h
    exact h.2
  · intro h
    simp [runsSched, setsOf, guardSched, check_flush_flag, will_any_enter] at h
    exact h.2
  · exact hv.2 _ he _ htr (@step_of_type_constraint types deps t _ _ ht
      (SysSet.exitPh t) (SysSet.transPh t) (by simp) (by simp [setsOf]) (by simp [setsOf]))
  · exact hv.2 _ htr _ hen (@step_of_type_constraint types deps t _ _ ht
      (SysSet.transPh t) (SysSet.enterPh t) (by simp) (by simp [setsOf]) (by simp [setsOf]))

/-- Witness for claim C3 at the concrete execution `execAB`. -/
theorem c3_witness :
    ((0 : Nat) ∈ [0, 1] ∧ ValidExec [0, 1] [(0, 1)] execAB ∧
        ((0 : Nat), SubPhase.exitPh) ∈ execAB) ∧
      execAB.indexOf ((0 : Nat), SubPhase.exitPh) <
        execAB.indexOf ((0 : Nat), SubPhase.transPh) :=
  ⟨⟨by decide, by decide, by decide⟩,
    (c3_flush_gating_and_subphase_order 0 (⟨some 0, some 1, true⟩ : Channel Nat) [0, 1]
        [(0, 1)] execAB (by decide) (by decide) (by decide) (by decide) (by decide)).2.2.2.1⟩

/-- Claim C4: during a flush (flush flag true), under the run conditions of
`src/src/schedule/resolve_state.rs` the `AnyExit` systems run iff the type is
currently enabled, the `AnyEnter` systems run iff it will be enabled after
apply, and the `AnyTrans` systems run iff both hold. -/
theorem c4_any_hook_conditions {σ : Type} (t : Nat) (ch : Channel σ) (hf : ch.flush = true) :
    (runsRS (t, SubPhase.anyExit) ch = true ↔ ch.current.isSome = true) ∧
      (runsRS (t, SubPhase.anyEnter) ch = true ↔ ch.next.isSome = true) ∧
      (runsRS (t, SubPhase.anyTrans) ch = true ↔
        (ch.current.isSome = true ∧ ch.next.isSome = true)) := by
  simp [runsRS, setsOf, guardRS, is_triggered, is_enabled, will_be_enabled, hf]

/-- Witness for claim C4 on a flushing, enabled channel. -/
theorem c4_witness :
    Channel.flush (⟨some 0, some 1, true⟩ : Channel Nat) = true ∧
      (runsRS ((0 : Nat), SubPhase.anyExit) (⟨some 0, some 1, true⟩ : Channel Nat) = true ↔
        (Channel.current (⟨some 0, some 1, true⟩ : Channel Nat)).isSome = true) :=
  ⟨rfl, (c4_any_hook_conditions 0 (⟨some 0, some 1, true⟩ : Channel Nat) rfl).1⟩

/-- Claim C5: the Trigger-phase change-detection system leaves the flush flag
equal to "previous flag (an explicit set-flush force) or `next` differs from
`current` under domain equality", and touches nothing else; in particular the
flag is left as it was when no difference is detected. -/
theorem c5_trigger_sets_flag {σ : Type} [DecidableEq σ] (ch : Channel σ) :
    (detect_change ch).flush = (ch.flush || will_any_change ch) ∧
      (detect_change ch).current = ch.current ∧ (detect_change ch).next = ch.next := by
  unfold detect_change set_flush
  cases hw : will_any_change ch <;> simp [hw]

/-- Witness for claim C5 on a concrete channel. -/
theorem c5_witness :
    (detect_change (⟨some 1, some 2, false⟩ : Channel Nat)).flush =
        (Channel.flush (⟨some 1, some 2, false⟩ : Channel Nat) ||
          will_any_change (⟨some 1, some 2, false⟩ : Channel Nat)) ∧
      (detect_change (⟨some 1, some 2, false⟩ : Channel Nat)).current =
        Channel.current (⟨some 1, some 2, false⟩ : Channel Nat) ∧
      (detect_change (⟨some 1, some 2, false⟩ : Channel Nat)).next =
        Channel.next (⟨some 1, some 2, false⟩ : Channel Nat) :=
  c5_trigger_sets_flag ⟨some 1, some 2, false⟩

/-- Claim C6: `set_next(v)` followed by Trigger and Apply in one tick leaves
`current = some v` with the flush flag reset to false; and whenever the flag is
set, Apply commits `current := next` and resets the flag. -/
theorem c6_round_trip {σ : Type} [DecidableEq σ] (ch : Channel σ) (v : σ) :
    (apply_phase (detect_change (set_next (some v) ch))).current = some v ∧
      (apply_phase (detect_change (set_next (some v) ch))).flush = false ∧
      (ch.flush = true → apply_phase ch = ⟨ch.next, ch.next, false⟩) := by
  obtain ⟨c, n, f⟩ := ch
  refine ⟨?_, ?_, ?_⟩ <;>
    simp [set_next, detect_change, will_any_change, apply_phase, apply_flush, set_flush,
      check_flush_flag]
  · split_ifs <;> simp_all [bne_iff_ne]
  · split_ifs <;> simp_all [bne_iff_ne]
  · intro h; simp [h]

/-- Witness for claim C6 on a concrete channel and value. -/
theorem c6_witness :
    (apply_phase (detect_change (set_next (some 5) (⟨some 1, some 2, true⟩ : Channel Nat)))).current =
        some 5 ∧
      (apply_phase (detect_change (set_next (some 5) (⟨some 1, some 2, true⟩ : Channel Nat)))).flush =
        false ∧
      (Channel.flush (⟨some 1, some 2, true⟩ : Channel Nat) = true →
        apply_phase (⟨some 1, some 2, true⟩ : Channel Nat) =
          ⟨Channel.next ⟨some 1, some 2, true⟩, Channel.next ⟨some 1, some 2, true⟩, false⟩) :=
  c6_round_trip ⟨some 1, some 2, true⟩ 5

/-- Claim C7: exactly one `StateFlushEvent { before, after }` is published in a
tick in which the type flushes and none otherwise; the sending system is gated
exactly on the triggered flush, it is ordered before the type's Apply inside the
`StateFlush` schedule, and the whole `StateFlush` schedule (hence Apply) runs
before the `Update` schedule in which subscribers read the event stream. -/
theorem c7_flush_event {σ : Type} (t : Nat) (ch : Channel σ)
    (types : List Nat) (deps : List (Nat × Nat)) (l : List Atom)
    (ht : t ∈ types) (hv : ValidExec types deps l)
    (hs : (t, SubPhase.sendEvent) ∈ l) (ha : (t, SubPhase.applyPh) ∈ l) :
    (is_triggered ch = true → tick_events ch = [send_flush_event ch]) ∧
      (is_triggered ch = false → tick_events ch = []) ∧
      runsRS (t, SubPhase.sendEvent) ch = is_triggered ch ∧
      l.indexOf (t, SubPhase.sendEvent) < l.indexOf (t, SubPhase.applyPh) ∧
      mainScheduleOrder.indexOf ScheduleLabel.stateFlush <
        mainScheduleOrder.indexOf ScheduleLabel.update := by
  refine ⟨?_, ?_, ?_, ?_, ?_⟩
  · intro h; simp [tick_events, h]
  · intro h; simp [tick_events, h]
  · simp [runsRS, setsOf, guardRS]
  · exact hv.2 _ hs _ ha (@step_of_type_constraint types deps t _ _ ht
      (SysSet.resolve t) SysSet.applyFlushSet (by simp) (by simp [setsOf]) (by simp [setsOf]))
  · decide

/-- Witness for claim C7 on a flushing channel in the execution `execAB`. -/
theorem c7_witness :
    ((0 : Nat) ∈ [0, 1] ∧ ValidExec [0, 1] [(0, 1)] execAB ∧
        is_triggered (⟨some 1, some 2, true⟩ : Channel Nat) = true) ∧
      tick_events (⟨some 1, some 2, true⟩ : Channel Nat) =
        [send_flush_event (⟨some 1, some 2, true⟩ : Channel Nat)] ∧
      execAB.indexOf ((0 : Nat), SubPhase.sendEvent) <
        execAB.indexOf ((0 : Nat), SubPhase.applyPh) :=
  ⟨⟨by decide, by decide, rfl⟩,
    (c7_flush_event 0 (⟨some 1, some 2, true⟩ : Channel Nat) [0, 1] [(0, 1)] execAB
        (by decide) (by decide) (by decide) (by decide)).1 rfl,
    (c7_flush_event 0 (⟨some 1, some 2, true⟩ : Channel Nat) [0, 1] [(0, 1)] execAB
        (by decide) (by decide) (by decide) (by decide)).2.2.2.1⟩

/-- Claim C8: first-write-wins mirroring with an external Bevy state.  If the
external side wrote a pending value, that value overwrites the type's `next`,
forces a flush, and no write-back to the external side occurs; the external
pending slot is only ever written by the engine when the external side wrote
nothing; and if neither side wrote, the tick fragment is a no-op. -/
theorem c8_first_write_wins {σ : Type} [DecidableEq σ] (s : BevySync σ) :
    (∀ v, s.bevyPending = some v →
        (bevy_tick s).pyri.next = v ∧ (bevy_tick s).pyri.flush = true ∧
          (bevy_tick s).bevyPending = some v) ∧
      ((bevy_tick s).bevyPending ≠ s.bevyPending → s.bevyPending = none) ∧
      (s.bevyPending = none → s.pyri.flush = false → will_any_change s.pyri = false →
        bevy_tick s = s) := by
  obtain ⟨⟨c, n, f⟩, bp⟩ := s
  refine ⟨?_, ?_, ?_⟩
  · intro v hv
    subst hv
    simp [bevy_tick, update_pyri_state, set_next, set_flush, detect_change, will_any_change,
      update_bevy_state, is_triggered]
  · intro hne
    cases bp with
    | none => rfl
    | some v =>
      exfalso
      apply hne
      simp [bevy_tick, update_pyri_state, set_next, set_flush, detect_change, will_any_change,
        update_bevy_state, is_triggered]
  · intro hbp hf hwac
    subst hbp
    subst hf
    simp [bevy_tick, update_pyri_state, update_bevy_state, detect_change, hwac, is_triggered]

/-- Witness for claim C8: the external side wrote `some 9`. -/
theorem c8_witness :
    BevySync.bevyPending (⟨⟨some 1, some 2, false⟩, some (some 9)⟩ : BevySync Nat) =
        some (some 9) ∧
      ((bevy_tick (⟨⟨some 1, some 2, false⟩, some (some 9)⟩ : BevySync Nat)).pyri.next = some 9 ∧
        (bevy_tick (⟨⟨some 1, some 2, false⟩, some (some 9)⟩ : BevySync Nat)).pyri.flush = true ∧
        (bevy_tick (⟨⟨some 1, some 2, false⟩, some (some 9)⟩ : BevySync Nat)).bevyPending =
          some (some 9)) :=
  ⟨rfl, (c8_first_write_wins (⟨⟨some 1, some 2, false⟩, some (some 9)⟩ : BevySync Nat)).1
    (some 9) rfl⟩

/-- Claim C9: registration is idempotent — when the `CurrentState` resource for
a type already exists, `add_state_`, `init_state_` and `insert_state_` all
return the app unchanged (storage, configuration and scheduling included). -/
theorem c9_registration_idempotent (app : App) (t : Nat) (d stg : Nat)
    (h : contains_resource app t = true) :
    add_state_ t app = app ∧ init_state_ t d app = app ∧ insert_state_ t stg app = app := by
  simp [add_state_, init_state_, insert_state_, h]

/-- Witness for claim C9 on an app with type `5` already registered. -/
theorem c9_witness :
    contains_resource ⟨[5], [(5, none)], [5]⟩ 5 = true ∧
      (add_state_ 5 ⟨[5], [(5, none)], [5]⟩ = ⟨[5], [(5, none)], [5]⟩ ∧
        init_state_ 5 0 ⟨[5], [(5, none)], [5]⟩ = ⟨[5], [(5, none)], [5]⟩ ∧
        insert_state_ 5 3 ⟨[5], [(5, none)], [5]⟩ = ⟨[5], [(5, none)], [5]⟩) :=
  ⟨rfl, c9_registration_idempotent ⟨[5], [(5, none)], [5]⟩ 5 0 3 rfl⟩

/-- Claim C10: when the flush flag is false at apply time, the apply phase is a
no-op — the committed current value is unchanged and the flag stays false. -/
theorem c10_apply_noop_when_not_flushed {σ : Type} (ch : Channel σ) (h : ch.flush = false) :
    apply_phase ch = ch := by
  simp [apply_phase, check_flush_flag, h]

/-- Witness for claim C10 on a non-flushing channel. -/
theorem c10_witness :
    Channel.flush (⟨some 0, some 1, false⟩ : Channel Nat) = false ∧
      apply_phase (⟨some 0, some 1, false⟩ : Channel Nat) = ⟨some 0, some 1, false⟩ :=
  ⟨rfl, c10_apply_noop_when_not_flushed ⟨some 0, some 1, false⟩ rfl⟩

end PyriState
